import Mathlib

/-!
# Verification of the company-data-extractor scraping core

Shallow embedding of the scraping backend's core logic:

* `updateJobProgress` — `src/backend/src/core/database/repositories/scraping.repository.ts`
* `fetchHtml`'s error classification, `processItem`'s control flow,
  `tryFallbackSelectors`, `extractWithNER`, `parseCompanyData`, `parseContacts`
  — `src/backend/src/modules/scraping/processors/scraping.processor.ts`
  (the revision with the NER third layer, which the cited line ranges refer to).

External collaborators (Postgres via drizzle, cheerio's DOM queries, the
`compromise` NLP engine, the transport errors raised by axios) are abstracted
as explicit inputs: a document handle exposing the query results the code
reads, an NLP oracle, and outcome fields for each persistence call.
Everything the repository's own code computes is translated directly.

JavaScript remarks that apply throughout: `x || null` on a string maps the
empty string and `undefined` to `null`; `if (x)` on a string-or-null tests
that the value is a non-empty string; these truthiness tests are modelled by
`truthy`. JS `String.prototype.length` counts UTF-16 units while Lean's
`String.length` counts code points; all length thresholds in this code
(50, 100, 500, 100000) are compared abstractly at that granularity.
-/

namespace Scraping

/-! ## Job/item data model (schema `scraping_jobs` / `scraping_items`) -/

/-- Item status domain, per the `scraping_items.status` column comment:
`pending | queued | processing | completed | failed`. -/
inductive ItemStatus where
  | pending
  | queued
  | processing
  | completed
  | failed
deriving DecidableEq, Repr

/-- The job-row fields the progress aggregator reads or writes
(`scraping_jobs`): total/processed/failed counters and the status string.
Wall-clock columns (`updatedAt` etc.) are not modelled. -/
structure JobRow where
  totalUrls : Nat
  processedUrls : Nat
  failedUrls : Nat
  status : String
deriving DecidableEq, Repr

/-- Whether an item status counts as processed ("completed" or "failed"),
mirroring `item.status === "completed" || item.status === "failed"` in
`updateJobProgress`. -/
def isTerminal (s : ItemStatus) : Bool :=
  s = ItemStatus.completed ∨ s = ItemStatus.failed

/-- `updateJobProgress` (scraping.repository.ts lines 269–319): reads the
job's item snapshot, counts terminal and failed items, derives the job
status, and overwrites the three derived columns of the job row.
`totalCount` is the snapshot size (`items.length`), exactly as in the code. -/
def updateJobProgress (job : JobRow) (items : List ItemStatus) : JobRow :=
  let completedCount := (items.filter isTerminal).length
  let failedCount := (items.filter (· = ItemStatus.failed)).length
  let totalCount := items.length
  let jobStatus :=
    if completedCount = totalCount ∧ totalCount > 0 then
      if failedCount = totalCount then "failed" else "completed"
    else "processing"
  { job with
      processedUrls := completedCount
      failedUrls := failedCount
      status := jobStatus }

/-- The status part of claim C1, written from the claim's own words:
`status = completed ⇔ processed = total ∧ failed < total`;
`status = failed ⇔ processed = total = failed`; otherwise `processing` —
required (by the claim) to hold for every snapshot, including the empty one.
`total` is the snapshot size, the only total `updateJobProgress` consults. -/
def c1StatusSpec (row : JobRow) (items : List ItemStatus) : Prop :=
  (row.status = "completed" ↔
    ((items.filter isTerminal).length = items.length ∧
      (items.filter (· = ItemStatus.failed)).length < items.length)) ∧
  (row.status = "failed" ↔
    ((items.filter isTerminal).length = items.length ∧
      items.length = (items.filter (· = ItemStatus.failed)).length)) ∧
  (¬((items.filter isTerminal).length = items.length ∧
      (items.filter (· = ItemStatus.failed)).length < items.length) →
    ¬((items.filter isTerminal).length = items.length ∧
      items.length = (items.filter (· = ItemStatus.failed)).length) →
    row.status = "processing")

/-! ## Fetch error classification (`fetchHtml`, scraping.processor.ts 870–951)

An error caught by `fetchHtml` is abstracted by the fields its `catch` block
reads: whether `axios.isAxiosError(error)` holds, `axiosError.code`,
`axiosError.response?.status`, `error.message`, and whether
`error instanceof Error` (for the non-axios fallback branch). -/

/-- The observable shape of a value thrown inside `fetchHtml`'s `try`. -/
structure FetchFailure where
  isAxiosError : Bool
  code : Option String
  responseStatus : Option Nat
  message : String
  isError : Bool
deriving DecidableEq, Repr

/-- JS `statusCode && statusCode >= 400` where `statusCode` is
`axiosError.response?.status`: `undefined` and `0` are falsy. -/
def statusAtLeast400 : Option Nat → Bool
  | some s => s != 0 && decide (400 ≤ s)
  | none => false

/-- The error-message classification implemented by `fetchHtml`'s `catch`
block (scraping.processor.ts 910–933): for axios errors the HTTP-status
test comes first, then the connection error codes, then the raw message;
non-axios `Error`s yield their message, anything else "Unknown error".
The produced string is the argument of `throw new Error(...)`. -/
def classifyFetchError (e : FetchFailure) : String :=
  if e.isAxiosError then
    if statusAtLeast400 e.responseStatus then
      "HTTP " ++ toString (e.responseStatus.getD 0)
    else if e.code = some "ECONNABORTED" then "Request timeout"
    else if e.code = some "ECONNREFUSED" then "Connection refused"
    else if e.code = some "ENOTFOUND" then "DNS resolution failed"
    else if e.code = some "ECONNRESET" then "Connection reset by server"
    else e.message
  else if e.isError then e.message
  else "Unknown error"

/-- Claim C4's classification, written from the claim's own words and in the
claim's priority order: connection timeout, connection refused, DNS failure,
peer reset, then — only after those — "HTTP <code>" whenever a status code
is present, else the raw transport message. -/
def classifyFetchErrorSpecC4 (e : FetchFailure) : String :=
  if e.code = some "ECONNABORTED" then "Request timeout"
  else if e.code = some "ECONNREFUSED" then "Connection refused"
  else if e.code = some "ENOTFOUND" then "DNS resolution failed"
  else if e.code = some "ECONNRESET" then "Connection reset by server"
  else
    match e.responseStatus with
    | some s => "HTTP " ++ toString s
    | none => e.message

/-- The classification rules of the amended claim C4 as an ordered
first-match-wins rule table for axios errors: an HTTP status ≥ 400 takes
priority, then the four connection error codes. -/
def fetchErrorRules (e : FetchFailure) : List (Bool × String) :=
  [(statusAtLeast400 e.responseStatus, "HTTP " ++ toString (e.responseStatus.getD 0)),
   (e.code == some "ECONNABORTED", "Request timeout"),
   (e.code == some "ECONNREFUSED", "Connection refused"),
   (e.code == some "ENOTFOUND", "DNS resolution failed"),
   (e.code == some "ECONNRESET", "Connection reset by server")]

/-- The amended claim C4, phrased from its words: the first applicable rule
of `fetchErrorRules` produces the message of an axios failure, the raw
message is used when no rule applies, non-axios `Error`s yield their message
and other thrown values "Unknown error". -/
def classifyFetchErrorSpecAmended (e : FetchFailure) : String :=
  if e.isAxiosError then
    match (fetchErrorRules e).find? (·.1) with
    | some rule => rule.2
    | none => e.message
  else if e.isError then e.message
  else "Unknown error"

/-! ## Documents, selectors and the extraction waterfall
(scraping.processor.ts 953–1283)

A fetched, cheerio-parsed page is abstracted by the query results the code
reads: `text sel` is `$(sel).text()` (text of all matches), `firstText sel`
is `$(sel).first().text()`, `attr sel name` is the attribute of the first
match (`$(sel).attr(name)`, `undefined` ↦ `none`), `contactCards` lists the
raw `(name, title, email)` sub-field texts of each `.contact-card` match in
order, and `bodyText` is `$("body").text()`. -/

/-- Abstract handle on one parsed document. -/
structure Doc where
  text : String → String
  firstText : String → String
  attr : String → String → Option String
  contactCards : List (String × String × String)
  bodyText : String

/-- JS truthiness of a `string | null | undefined` value. -/
def truthy : Option String → Bool
  | some v => v != ""
  | none => false

/-- JS `String.prototype.trim`, modelled at code-point granularity: strip
leading and trailing whitespace. (Lean's own `String.trim` is extensionally
the same but is defined through `Substring` loops that the kernel cannot
evaluate, so the model uses a structural definition over the character
list.) -/
def jsTrim (s : String) : String :=
  ⟨((s.data.dropWhile Char.isWhitespace).reverse.dropWhile Char.isWhitespace).reverse⟩

/-- JS `String.prototype.startsWith`. -/
def jsStartsWith (s p : String) : Bool :=
  p.data.isPrefixOf s.data

/-- Substring containment on character lists (JS `String.prototype.includes`). -/
def listContainsSub (pat : List Char) : List Char → Bool
  | [] => pat.isEmpty
  | c :: rest => pat.isPrefixOf (c :: rest) || listContainsSub pat rest

/-- JS `String.prototype.includes`. -/
def jsIncludes (s p : String) : Bool :=
  listContainsSub p.data s.data

/-- `s.trim() || null`: the layer-1 text extraction pattern. -/
def trimOpt (s : String) : Option String :=
  let t := jsTrim s
  if t = "" then none else some t

/-- `x || null` on an optional attribute value (empty string ↦ null). -/
def hrefOpt (o : Option String) : Option String :=
  if truthy o then o else none

/-- The primary selectors (`SELECTORS` constant). -/
def SELECTORS_COMPANY_NAME : String := "h1.company-name"

/-- See `SELECTORS_COMPANY_NAME`. -/
def SELECTORS_COMPANY_WEBSITE : String := "a.company-website"

/-- See `SELECTORS_COMPANY_NAME`. -/
def SELECTORS_INDUSTRY : String := "span.industry"

/-- See `SELECTORS_COMPANY_NAME`. -/
def SELECTORS_HEADCOUNT : String := "span.headcount"

/-- See `SELECTORS_COMPANY_NAME`. -/
def SELECTORS_LOCATION : String := "span.location"

/-- Fallback selector list for the company name (`FALLBACK_SELECTORS`). -/
def FALLBACK_COMPANY_NAME : List String :=
  ["h1", "title", "meta[property=\"og:site_name\"]",
   "meta[name=\"application-name\"]", ".company-title", ".business-name",
   "[itemtype*=\"Organization\"] [itemprop=\"name\"]"]

/-- Fallback selector list for the website. -/
def FALLBACK_WEBSITE : List String :=
  ["a[href*=\"http\"]", "link[rel=\"canonical\"]", "meta[property=\"og:url\"]"]

/-- Fallback selector list for the industry. -/
def FALLBACK_INDUSTRY : List String :=
  [".category", ".sector", "[itemprop=\"industry\"]", "meta[name=\"keywords\"]"]

/-- Fallback selector list for the headcount. -/
def FALLBACK_HEADCOUNT : List String :=
  [".employees", ".team-size", ".staff-count", "[itemprop=\"numberOfEmployees\"]"]

/-- Fallback selector list for the location. -/
def FALLBACK_LOCATION : List String :=
  [".address", ".location", ".city", "[itemprop=\"address\"]",
   "[itemprop=\"location\"]", "meta[name=\"geo.position\"]"]

/-- `tryFallbackSelectors` (scraping.processor.ts 957–996): walk the selector
list in order; per selector dispatch on its shape (meta → `content`
attribute, the `title` tag's text, link → `href` attribute, selectors
containing `[href` → first match's `href`, otherwise first match's text);
the first value that is truthy and whose trim has length strictly between 0
and 500 wins and later selectors are not tried. The per-selector `catch`
that skips invalid selectors has no counterpart because the abstract
document queries are total. -/
def tryFallbackSelectors (doc : Doc) : List String → Option String
  | [] => none
  | selector :: rest =>
    let value : Option String :=
      if jsStartsWith selector "meta" then doc.attr selector "content"
      else if selector = "title" then some (doc.text "title")
      else if jsStartsWith selector "link" then doc.attr selector "href"
      else if jsIncludes selector "[href" then doc.attr selector "href"
      else some (doc.firstText selector)
    match value with
    | some v =>
      if v = "" then tryFallbackSelectors doc rest
      else
        let cleaned := jsTrim v
        if 0 < cleaned.length ∧ cleaned.length < 500 then some cleaned
        else tryFallbackSelectors doc rest
    | none => tryFallbackSelectors doc rest

/-- The character-level collapse of whitespace runs: each maximal run of
whitespace becomes a single `' '`; a trailing run is dropped (a leading one
is dropped by `collapseWs`). -/
def collapseRun : List Char → List Char
  | [] => []
  | c :: cs =>
    if c.isWhitespace then
      match collapseRun cs with
      | [] => []
      | ' ' :: rest => ' ' :: rest
      | rest => ' ' :: rest
    else c :: collapseRun cs

/-- `bodyText.replace(/\s+/g, " ").trim()`: collapse every whitespace run to
a single space and strip the leading/trailing one. -/
def collapseWs (s : String) : String :=
  ⟨(collapseRun s.data).dropWhile (· = ' ')⟩

/-- `s.substring(0, n)`: the first `n` characters. -/
def strTake (s : String) (n : Nat) : String :=
  ⟨s.data.take n⟩

/-- The text `extractWithNER` hands to the NLP engine and the email regex:
the collapsed body text capped at `MAX_TEXT_LENGTH = 100000` characters. -/
def nerAnalyzedText (doc : Doc) : String :=
  let bodyText := collapseWs doc.bodyText
  if bodyText.length > 100000 then strTake bodyText 100000 else bodyText

/-- Result shape of `extractWithNER`. -/
structure NerResult where
  companyName : Option String
  hqLocation : Option String
  people : List String
  emails : List String
deriving DecidableEq, Repr

/-- The external text-analysis engines used by `extractWithNER`: the
`compromise` queries `doc.organizations()`, `doc.places()`, `doc.people()`
(each a function of the analyzed text) and the email-regex scan
`text.match(/\b[A-Za-z0-9._%+-]+@[A-Za-z0-9.-]+\.[A-Za-z]{2,}\b/g)`.
Every match of that regex contains an `@` (the pattern requires one),
which is the only fact about the external scan the proofs rely on. -/
structure Nlp where
  orgs : String → List String
  places : String → List String
  people : String → List String
  emailMatches : String → List String
  emailMatches_at : ∀ t e, e ∈ emailMatches t → '@' ∈ e.data

/-- `extractWithNER` (scraping.processor.ts 1003–1059): collapse the body
text; if it is falsy or shorter than 50 characters return empty results;
otherwise cap it at 100000 characters, query the NLP engine and the email
regex on the capped text, and pick as company name (resp. location) the
first organization (resp. place) whose length is strictly between 1 and
100 (`|| null` coops the not-found case to null). The per-item cache is
not modelled: the function is pure, so memoization is observationally
transparent within one item's execution. -/
def extractWithNER (doc : Doc) (nlp : Nlp) : NerResult :=
  let bodyText := collapseWs doc.bodyText
  if bodyText = "" ∨ bodyText.length < 50 then
    ⟨none, none, [], []⟩
  else
    let t := nerAnalyzedText doc
    let organizations := nlp.orgs t
    let placeList := nlp.places t
    let peopleList := nlp.people t
    let emails := nlp.emailMatches t
    let companyName :=
      organizations.find? (fun o => decide (1 < o.length) && decide (o.length < 100))
    let hqLocation :=
      placeList.find? (fun p => decide (1 < p.length) && decide (p.length < 100))
    ⟨companyName, hqLocation, peopleList, emails⟩

/-- Extracted company fields (`CompanyData` interface). -/
structure CompanyData where
  companyName : Option String
  website : Option String
  industry : Option String
  headcountRange : Option String
  hqLocation : Option String
deriving DecidableEq, Repr

/-- All-null company data, the graceful-degradation value. -/
def nullCompanyData : CompanyData :=
  ⟨none, none, none, none, none⟩

/-- Layer 1 company name: `$(SELECTORS.COMPANY_NAME).text().trim() || null`. -/
def layer1CompanyName (doc : Doc) : Option String :=
  trimOpt (doc.text SELECTORS_COMPANY_NAME)

/-- Layer 1 website: `$(SELECTORS.COMPANY_WEBSITE).attr("href") || null`. -/
def layer1Website (doc : Doc) : Option String :=
  hrefOpt (doc.attr SELECTORS_COMPANY_WEBSITE "href")

/-- Layer 1 industry: `$(SELECTORS.INDUSTRY).text().trim() || null`. -/
def layer1Industry (doc : Doc) : Option String :=
  trimOpt (doc.text SELECTORS_INDUSTRY)

/-- Layer 1 headcount: `$(SELECTORS.HEADCOUNT).text().trim() || null`. -/
def layer1Headcount (doc : Doc) : Option String :=
  trimOpt (doc.text SELECTORS_HEADCOUNT)

/-- Layer 1 location: `$(SELECTORS.LOCATION).text().trim() || null`. -/
def layer1Location (doc : Doc) : Option String :=
  trimOpt (doc.text SELECTORS_LOCATION)

/-- Layer 2 company name: the fallback-selector walk for the name. -/
def layer2CompanyName (doc : Doc) : Option String :=
  tryFallbackSelectors doc FALLBACK_COMPANY_NAME

/-- Layer 2 website. -/
def layer2Website (doc : Doc) : Option String :=
  tryFallbackSelectors doc FALLBACK_WEBSITE

/-- Layer 2 industry. -/
def layer2Industry (doc : Doc) : Option String :=
  tryFallbackSelectors doc FALLBACK_INDUSTRY

/-- Layer 2 headcount. -/
def layer2Headcount (doc : Doc) : Option String :=
  tryFallbackSelectors doc FALLBACK_HEADCOUNT

/-- Layer 2 location. -/
def layer2Location (doc : Doc) : Option String :=
  tryFallbackSelectors doc FALLBACK_LOCATION

/-- `parseCompanyData` (scraping.processor.ts 1066–1170), the body inside
its `try`: Layer 1 reads the primary selectors; Layer 2 runs
`tryFallbackSelectors` for each field that is still falsy; Layer 3 runs
`extractWithNER` only when company name or location is still falsy and
fills just those two fields when the NER candidate is truthy. -/
def parseCompanyData (doc : Doc) (nlp : Nlp) : CompanyData :=
  let companyName := layer1CompanyName doc
  let website := layer1Website doc
  let industry := layer1Industry doc
  let headcountRange := layer1Headcount doc
  let hqLocation := layer1Location doc
  let companyName :=
    if truthy companyName then companyName else layer2CompanyName doc
  let website :=
    if truthy website then website else layer2Website doc
  let industry :=
    if truthy industry then industry else layer2Industry doc
  let headcountRange :=
    if truthy headcountRange then headcountRange else layer2Headcount doc
  let hqLocation :=
    if truthy hqLocation then hqLocation else layer2Location doc
  if !truthy companyName || !truthy hqLocation then
    let nerData := extractWithNER doc nlp
    let companyName :=
      if !truthy companyName && truthy nerData.companyName then nerData.companyName
      else companyName
    let hqLocation :=
      if !truthy hqLocation && truthy nerData.hqLocation then nerData.hqLocation
      else hqLocation
    ⟨companyName, website, industry, headcountRange, hqLocation⟩
  else
    ⟨companyName, website, industry, headcountRange, hqLocation⟩

/-- A contact record (`Contact` interface, `scraping-items.ts`). -/
structure Contact where
  name : String
  title : String
  email : String
deriving DecidableEq, Repr

/-- Layer 1 of `parseContacts`: for each `.contact-card` match, trim the
three sub-field texts and keep the card only when all three are truthy
(`if (name && title && email)`). -/
def structuredContacts (doc : Doc) : List Contact :=
  doc.contactCards.filterMap fun card =>
    let name := jsTrim card.1
    let title := jsTrim card.2.1
    let email := jsTrim card.2.2
    if name != "" && title != "" && email != "" then some ⟨name, title, email⟩
    else none

/-- `[...new Set(list)]`: deduplicate keeping the first occurrence of each
element, preserving insertion order. -/
def dedupFirst (l : List String) : List String :=
  l.foldl (fun acc x => if acc.contains x then acc else acc ++ [x]) []

/-- The NER contact reconstruction loop of `parseContacts` (scraping
.processor.ts 1222–1242): pair `people[i]` with `uniqueEmails[i]` for
`i < maxMatches = min(people.length, uniqueEmails.length)` (`zip`
truncates at exactly that bound), keeping a pair only when the person
name is truthy with length strictly between 1 and 100; the title is fixed
to "Unknown". A dropped pair discards its email slot. -/
def nerContactPairs (people uniqueEmails : List String) : List Contact :=
  (people.zip uniqueEmails).filterMap fun pe =>
    if pe.1 != "" && decide (1 < pe.1.length) && decide (pe.1.length < 100) then
      some ⟨pe.1, "Unknown", pe.2⟩
    else none

/-- The `contacts` array of `parseContacts` after both layers have run:
the structured layer, then — only when it produced zero contacts and the
NER extraction found at least one person and one email — the positional
NER pairing over the deduplicated email list appended to it. -/
def contactsAccum (doc : Doc) (nlp : Nlp) : List Contact :=
  let contacts := structuredContacts doc
  if contacts.length = 0 then
    let nerData := extractWithNER doc nlp
    if nerData.people.length > 0 ∧ nerData.emails.length > 0 then
      let uniqueEmails := dedupFirst nerData.emails
      contacts ++ nerContactPairs nerData.people uniqueEmails
    else contacts
  else contacts

/-- `parseContacts` (scraping.processor.ts 1190–1283), the body inside its
`try`: the two contact layers (`contactsAccum`); an empty final list is
returned as `null`, never as an empty array. -/
def parseContacts (doc : Doc) (nlp : Nlp) : Option (List Contact) :=
  let contacts := contactsAccum doc nlp
  if contacts.length > 0 then some contacts else none

/-! ## Totality at the extraction boundary (claim C8)

The bodies of `parseCompanyData` and `parseContacts` are wrapped in
`try`/`catch`; the only throw sites are the external parser calls, so the
body's outcome is abstracted as an `Except`: `.ok` carries the computed
value, `.error` a thrown internal parsing error. The functions below are
the `catch` handlers of the source. -/

/-- `parseCompanyData` including its `catch` (scraping.processor.ts
1148–1169): an internal parsing error degrades to all-null fields. -/
def parseCompanyDataGuarded (body : Except String CompanyData) : CompanyData :=
  match body with
  | .ok data => data
  | .error _ => nullCompanyData

/-- `parseContacts` including its `catch` (scraping.processor.ts
1267–1282): an internal parsing error degrades to a null contact list. -/
def parseContactsGuarded (body : Except String (Option (List Contact))) :
    Option (List Contact) :=
  match body with
  | .ok contacts => contacts
  | .error _ => none

/-! ## `processItem` control flow (scraping.processor.ts 721–864)

One task execution is determined by the outcome of each effectful call:
the three item writes and the progress write either succeed or throw a
persistence error with some message, and the fetch either returns HTML or
throws the classified `Error`. The rate-limit delay and the (total)
extraction cannot throw and do not influence control flow. -/

/-- Outcomes of the externally-effectful calls inside one `processItem`
execution: for each persistence write, `none` means success and `some m`
a thrown persistence error with message `m`. -/
structure World where
  processingWrite : Option String
  fetch : Except FetchFailure String
  completedWrite : Option String
  failedWrite : Option String
  progressWrite : Option String

/-- The persistence/progress calls `processItem` issues, in order. The
`markFailed` event records the `lastError` message being written. -/
inductive Event where
  | markProcessing
  | markCompleted
  | markFailed (lastError : String)
  | updateJobProgress
deriving DecidableEq, Repr

/-- The error (if any) escaping `processItem`'s `try` block: a persistence
error from the `processing` write, the classified fetch error, or a
persistence error from the `completed` write. -/
def tryPhaseError (w : World) : Option String :=
  match w.processingWrite with
  | some m => some m
  | none =>
    match w.fetch with
    | .error fe => some (classifyFetchError fe)
    | .ok _ => w.completedWrite

/-- One `processItem` execution: the ordered trace of persistence calls it
issues and the error it re-throws to the task boundary (`none` = normal
return). The `try` phase marks the item `processing`, fetches, extracts
(total) and marks it `completed`; the `catch` phase writes the failed
status with `lastError` set to the caught message — if that write itself
throws, its error escapes after `finally`; the `finally` phase always
invokes `updateJobProgress` and swallows its error. -/
def processItemRun (w : World) : List Event × Option String :=
  let tryPhase : List Event × Option String :=
    match w.processingWrite with
    | some m => ([Event.markProcessing], some m)
    | none =>
      match w.fetch with
      | .error fe => ([Event.markProcessing], some (classifyFetchError fe))
      | .ok _html =>
        match w.completedWrite with
        | some m => ([Event.markProcessing, Event.markCompleted], some m)
        | none => ([Event.markProcessing, Event.markCompleted], none)
  let afterCatch : List Event × Option String :=
    match tryPhase.2 with
    | some errorMessage =>
      (tryPhase.1 ++ [Event.markFailed errorMessage], w.failedWrite)
    | none => (tryPhase.1, none)
  (afterCatch.1 ++ [Event.updateJobProgress], afterCatch.2)

/-! ## Concrete example inputs used by counterexamples and witnesses -/

/-- An axios failure carrying both a connection-timeout code and an HTTP
status ≥ 400: the code's classifier and the claimed priority order disagree
here. -/
def c4CounterFailure : FetchFailure :=
  ⟨true, some "ECONNABORTED", some 503, "timeout of 30000ms exceeded", true⟩

/-- A DNS-resolution failure as axios reports it (Scenario C of the spec). -/
def dnsFailure : FetchFailure :=
  ⟨true, some "ENOTFOUND", none, "getaddrinfo ENOTFOUND example.invalid", true⟩

/-- A task execution whose fetch fails with `dnsFailure` and whose
persistence calls all succeed. -/
def dnsWorld : World :=
  ⟨none, Except.error dnsFailure, none, none, none⟩

/-- A task execution in which the fetch succeeds but the `completed`
persistence write throws: claim C9 predicts that `processItem` throws. -/
def c9FailingWorld : World :=
  ⟨none, Except.ok "<html><body>ok</body></html>", some "db insert failed", none, none⟩

/-- A page whose only markup is `h1.company-name = "Acme Corp"`
(Scenario A of the spec). -/
def acmeDoc : Doc where
  text := fun sel => if sel = "h1.company-name" then "Acme Corp" else ""
  firstText := fun _ => ""
  attr := fun _ _ => none
  contactCards := []
  bodyText := ""

/-- A page with one fully-filled structured contact card. -/
def cardDoc : Doc where
  text := fun _ => ""
  firstText := fun _ => ""
  attr := fun _ _ => none
  contactCards := [("Jane Doe", "CEO", "jane@acme.com")]
  bodyText := ""

/-- A page whose collapsed body text is shorter than 50 characters. -/
def shortDoc : Doc where
  text := fun _ => ""
  firstText := fun _ => ""
  attr := fun _ _ => none
  contactCards := []
  bodyText := "A tiny page."

/-- An NLP oracle recognizing one organization, place, person and email. -/
def oracleA : Nlp where
  orgs := fun _ => ["Acme Corp"]
  places := fun _ => ["San Francisco"]
  people := fun _ => ["Jane Doe"]
  emailMatches := fun _ => ["jane@acme.com"]
  emailMatches_at := by
    intro t e h
    rw [List.mem_singleton] at h
    subst h
    decide

/-- An NLP oracle recognizing nothing. -/
def oracleB : Nlp where
  orgs := fun _ => []
  places := fun _ => []
  people := fun _ => []
  emailMatches := fun _ => []
  emailMatches_at := by
    intro t e h
    cases h

/-! ## Theorems -/

/-- Failed items are a subset of terminal items, so the failed count never
exceeds the processed count. -/
theorem failed_le_terminal (items : List ItemStatus) :
    (items.filter (· = ItemStatus.failed)).length ≤ (items.filter isTerminal).length := by
  induction items with
  | nil => simp
  | cons s rest ih =>
    cases s <;> simp [isTerminal, List.filter] <;> omega

/-- Terminal items are a sublist of the snapshot, so the processed count never
exceeds the snapshot size. -/
theorem terminal_le_total (items : List ItemStatus) :
    (items.filter isTerminal).length ≤ items.length :=
  List.length_filter_le _ _

/-- C1 (counterexample): on the empty item snapshot the claim's status rules
demand `status = failed` (since `processed = total = failed = 0`), but
`updateJobProgress` guards the terminal branch with `totalCount > 0` and
leaves the job at `processing`. -/
theorem c1_empty_snapshot_counterexample :
    ¬ c1StatusSpec (updateJobProgress ⟨0, 0, 0, "pending"⟩ []) [] := by
  unfold c1StatusSpec
  decide

/-- C1 (amended): after `updateJobProgress` the job row satisfies
`processedUrls = |{items : status ∈ {completed, failed}}|` and
`failedUrls = |{items : status = failed}|`; the status biconditionals hold
with the failed case restricted to non-empty snapshots:
`status = completed ⇔ processed = total ∧ failed < total`,
`status = failed ⇔ 0 < total ∧ processed = total = failed`, and
`status = processing` exactly otherwise (in particular on the empty
snapshot), where `total` is the size of the item snapshot. -/
theorem updateJobProgress_row_spec (job : JobRow) (items : List ItemStatus) :
    (updateJobProgress job items).processedUrls = (items.filter isTerminal).length ∧
    (updateJobProgress job items).failedUrls
      = (items.filter (· = ItemStatus.failed)).length ∧
    ((updateJobProgress job items).status = "completed" ↔
      ((items.filter isTerminal).length = items.length ∧
        (items.filter (· = ItemStatus.failed)).length < items.length)) ∧
    ((updateJobProgress job items).status = "failed" ↔
      (0 < items.length ∧ (items.filter isTerminal).length = items.length ∧
        items.length = (items.filter (· = ItemStatus.failed)).length)) ∧
    ((updateJobProgress job items).status = "processing" ↔
      ¬((items.filter isTerminal).length = items.length ∧ 0 < items.length)) := by
  have h1 := failed_le_terminal items
  have h2 := terminal_le_total items
  have hs : (updateJobProgress job items).status =
      (if (items.filter isTerminal).length = items.length ∧ items.length > 0 then
        if (items.filter (· = ItemStatus.failed)).length = items.length then "failed"
        else "completed"
      else "processing") := rfl
  refine ⟨rfl, rfl, ?_, ?_, ?_⟩ <;> rw [hs] <;> split_ifs with hc hf <;>
    first
      | exact iff_of_true rfl (by omega)
      | exact iff_of_false (by decide) (by omega)

/-- C2: re-deriving job progress from the same unchanged item snapshot is
idempotent — the second run produces a job row identical to the first. -/
theorem updateJobProgress_idempotent (job : JobRow) (items : List ItemStatus) :
    updateJobProgress (updateJobProgress job items) items = updateJobProgress job items := by
  simp [updateJobProgress]

/-- C3: on every exit path of `processItem` — success, item failure, or a
persistence error thrown by any write — `updateJobProgress` is invoked, and
it is the last effectful call before `processItem` exits. -/
theorem processItem_progress_trailer (w : World) :
    (processItemRun w).1.getLast? = some Event.updateJobProgress ∧
    Event.updateJobProgress ∈ (processItemRun w).1 := by
  obtain ⟨pw, f, cw, fw, gw⟩ := w
  cases pw <;> cases f <;> cases cw <;> exact ⟨rfl, by simp [processItemRun]⟩

/-- C9 (counterexample): a persistence error thrown by the `completed` write
is caught by `processItem`'s `catch` (which marks the item failed) and not
re-thrown — `processItem` returns normally, contradicting the claim that
every persistence error reaches the task boundary. -/
theorem c9_swallowed_persistence_error :
    (processItemRun c9FailingWorld).2 = none ∧
    c9FailingWorld.completedWrite = some "db insert failed" := by
  exact ⟨rfl, rfl⟩

/-- C9 (amended): the only persistence error that propagates to the task
boundary is one thrown by the failure-path item write (the `catch` block's
own `updateItemStatus(..., "failed")`): `processItem` throws exactly when
its `try` block failed and that write also throws, and the message it
throws is that write's error. Persistence errors inside the `try` are
converted into a terminal item failure, and `updateJobProgress` errors are
swallowed in the `finally`. -/
theorem processItem_throw_characterization (w : World) :
    ((processItemRun w).2 =
      match tryPhaseError w with
      | some _ => w.failedWrite
      | none => none) ∧
    ((processItemRun w).2 ≠ none ↔ (tryPhaseError w ≠ none ∧ w.failedWrite ≠ none)) := by
  obtain ⟨pw, f, cw, fw, gw⟩ := w
  cases pw <;> cases f <;> cases cw <;> cases fw <;>
    simp [processItemRun, tryPhaseError]

/-- C4 (counterexample): on an axios error carrying both `ECONNABORTED` and
HTTP status 503, the code classifies it as "HTTP 503" (the status test comes
first in `fetchHtml`'s catch), while the claim's priority order — connection
timeout before status — demands "Request timeout". -/
theorem c4_priority_counterexample :
    classifyFetchError c4CounterFailure = "HTTP 503" ∧
    classifyFetchErrorSpecC4 c4CounterFailure = "Request timeout" ∧
    classifyFetchError c4CounterFailure ≠ classifyFetchErrorSpecC4 c4CounterFailure := by
  refine ⟨rfl, rfl, ?_⟩
  decide

/-- C4 (amended): the failed-fetch message is produced with the HTTP test
first — status ≥ 400 present → "HTTP <code>"; else connection timeout →
"Request timeout"; connection refused → "Connection refused"; DNS failure →
"DNS resolution failed"; peer reset → "Connection reset by server"; else
the raw transport message (a status < 400 never yields "HTTP <code>") —
and on a failed fetch this classified string is the `lastError` written by
the failed-item persistence call. -/
theorem classifyFetchError_c4_amended (e : FetchFailure) (w : World) (fe : FetchFailure)
    (hp : w.processingWrite = none) (hf : w.fetch = Except.error fe) :
    classifyFetchError e = classifyFetchErrorSpecAmended e ∧
    Event.markFailed (classifyFetchError fe) ∈ (processItemRun w).1 := by
  constructor
  · rcases e with ⟨ax, code, st, msg, isErr⟩
    cases ax
    · cases isErr <;> rfl
    · by_cases h0 : statusAtLeast400 st
      · simp [classifyFetchError, classifyFetchErrorSpecAmended, fetchErrorRules,
          List.find?, h0]
      · by_cases h1 : code = some "ECONNABORTED"
        · simp [classifyFetchError, classifyFetchErrorSpecAmended, fetchErrorRules,
            List.find?, h0, h1]
        · by_cases h2 : code = some "ECONNREFUSED"
          · simp [classifyFetchError, classifyFetchErrorSpecAmended, fetchErrorRules,
              List.find?, h0, h1, h2]
          · by_cases h3 : code = some "ENOTFOUND"
            · simp [classifyFetchError, classifyFetchErrorSpecAmended, fetchErrorRules,
                List.find?, h0, h1, h2, h3]
            · by_cases h4 : code = some "ECONNRESET"
              · simp [classifyFetchError, classifyFetchErrorSpecAmended, fetchErrorRules,
                  List.find?, h0, h1, h2, h3, h4]
              · have b1 : (code == some "ECONNABORTED") = false := beq_eq_false_iff_ne.mpr h1
                have b2 : (code == some "ECONNREFUSED") = false := beq_eq_false_iff_ne.mpr h2
                have b3 : (code == some "ENOTFOUND") = false := beq_eq_false_iff_ne.mpr h3
                have b4 : (code == some "ECONNRESET") = false := beq_eq_false_iff_ne.mpr h4
                simp [classifyFetchError, classifyFetchErrorSpecAmended, fetchErrorRules,
                  List.find?, h0, h1, h2, h3, h4, b1, b2, b3, b4]
  · obtain ⟨pw, f, cw, fw, gw⟩ := w
    simp only at hp hf
    subst hp
    subst hf
    simp [processItemRun]

/-- C4 (witness): a concrete DNS failure is classified "DNS resolution
failed" under both phrasings, and that string is the `lastError` of the
failed-item write in the corresponding task execution. -/
theorem classifyFetchError_c4_amended_witness :
    classifyFetchError dnsFailure = classifyFetchErrorSpecAmended dnsFailure ∧
    Event.markFailed (classifyFetchError dnsFailure) ∈ (processItemRun dnsWorld).1 :=
  classifyFetchError_c4_amended dnsFailure dnsWorld dnsFailure rfl rfl

/-- `trim() || null` never produces an empty string. -/
theorem trimOpt_ne_blank (s : String) : trimOpt s ≠ some "" := by
  unfold trimOpt
  dsimp only
  split
  · exact fun h => Option.noConfusion h
  · intro h
    rw [Option.some.injEq] at h
    simp_all

/-- `attr || null` never produces an empty string. -/
theorem hrefOpt_ne_blank (o : Option String) : hrefOpt o ≠ some "" := by
  unfold hrefOpt
  split
  · rcases o with _ | v
    · exact fun h => Option.noConfusion h
    · intro h
      rw [Option.some.injEq] at h
      simp_all [truthy]
  · exact fun h => Option.noConfusion h

/-- A successful fallback walk returns a non-empty cleaned string. -/
theorem tryFallbackSelectors_ne_blank (doc : Doc) (l : List String) :
    tryFallbackSelectors doc l ≠ some "" := by
  induction l with
  | nil => simp [tryFallbackSelectors]
  | cons s rest ih =>
    simp only [tryFallbackSelectors]
    split
    · split_ifs with h1 h2
      · exact ih
      · intro hc
        rw [Option.some.injEq] at hc
        rw [hc] at h2
        simp at h2
      · exact ih
    · exact ih

/-- The NER company-name candidate, when found, has length above 1, so it
is never the empty string. -/
theorem extractWithNER_companyName_ne_blank (doc : Doc) (nlp : Nlp) :
    (extractWithNER doc nlp).companyName ≠ some "" := by
  unfold extractWithNER
  dsimp only
  split_ifs with h
  · simp
  · intro hc
    simp only at hc
    have h2 := List.find?_some hc
    simp at h2

/-- The NER location candidate, when found, has length above 1, so it is
never the empty string. -/
theorem extractWithNER_hqLocation_ne_blank (doc : Doc) (nlp : Nlp) :
    (extractWithNER doc nlp).hqLocation ≠ some "" := by
  unfold extractWithNER
  dsimp only
  split_ifs with h
  · simp
  · intro hc
    simp only at hc
    have h2 := List.find?_some hc
    simp at h2

/-- Every email the NER extraction reports comes from the regex scan, so it
contains an `@`. -/
theorem extractWithNER_emails_at (doc : Doc) (nlp : Nlp) :
    ∀ e ∈ (extractWithNER doc nlp).emails, '@' ∈ e.data := by
  unfold extractWithNER
  dsimp only
  split_ifs with h
  · simp
  · intro e he
    simp only at he
    exact nlp.emailMatches_at _ e he

/-- A string containing `@` is not empty. -/
theorem ne_empty_of_at_mem {s : String} (h : '@' ∈ s.data) : s ≠ "" := by
  intro hs
  subst hs
  exact absurd h (List.not_mem_nil _)

/-- JS truthiness agrees with `isSome` on options that are never the empty
string. -/
theorem truthy_of_ne {o : Option String} (h1 : o ≠ none) (h2 : o ≠ some "") :
    truthy o = true := by
  rcases o with _ | v
  · exact absurd rfl h1
  · have : v ≠ "" := fun hv => h2 (by rw [hv])
    simp [truthy, this]

/-- The layer-2 fill `if truthy a then a else b` is `a <|> b` when `a` is
never the empty string. -/
theorem fill_eq_orElse (a b : Option String) (ha : a ≠ some "") :
    (if truthy a then a else b) = (a <|> b) := by
  rcases a with _ | v
  · simp [truthy]
  · have : v ≠ "" := fun hv => ha (by rw [hv])
    simp [truthy, this]

/-- `a <|> b` is never the empty string when neither side is. -/
theorem orElse_ne_blank {a b : Option String} (ha : a ≠ some "") (hb : b ≠ some "") :
    (a <|> b) ≠ some "" := by
  rcases a with _ | v
  · simpa using hb
  · simpa using ha

/-- The layer-3 fill `if !truthy x && truthy y then y else x` is `x <|> y`
when neither side is ever the empty string. -/
theorem ner_fill_eq_orElse (x y : Option String) (hx : x ≠ some "") (hy : y ≠ some "") :
    (if !truthy x && truthy y then y else x) = (x <|> y) := by
  rcases x with _ | v
  · rcases y with _ | u
    · simp [truthy]
    · have : u ≠ "" := fun hu => hy (by rw [hu])
      simp [truthy, this]
  · have : v ≠ "" := fun hv => hx (by rw [hv])
    simp [truthy, this]

/-- `x <|> y` collapses to `x` when `x` is truthy. -/
theorem orElse_of_truthy {x : Option String} (y : Option String) (h : truthy x = true) :
    (x <|> y) = x := by
  rcases x with _ | v
  · simp [truthy] at h
  · rfl

/-- C8: extraction is total at its boundary — whatever the outcome of the
parsing body, the guarded `parseCompanyData` (resp. `parseContacts`)
returns normally: on an internal parsing error it degrades to all-null
company fields (resp. a null contact list) instead of re-throwing. -/
theorem extraction_boundary_total (bodyC : Except String CompanyData)
    (bodyK : Except String (Option (List Contact))) :
    (∀ e, bodyC = Except.error e → parseCompanyDataGuarded bodyC = nullCompanyData) ∧
    (∀ d, bodyC = Except.ok d → parseCompanyDataGuarded bodyC = d) ∧
    (∀ e, bodyK = Except.error e → parseContactsGuarded bodyK = none) ∧
    (∀ d, bodyK = Except.ok d → parseContactsGuarded bodyK = d) := by
  refine ⟨?_, ?_, ?_, ?_⟩ <;> rintro x rfl <;> rfl

/-- C8 (witness): a concrete internal parsing error degrades to all-null
fields and a null contact list. -/
theorem extraction_boundary_total_witness :
    parseCompanyDataGuarded (Except.error "cheerio blew up") = nullCompanyData ∧
    parseContactsGuarded (Except.error "cheerio blew up") = none :=
  ⟨(extraction_boundary_total (Except.error "cheerio blew up")
      (Except.error "cheerio blew up")).1 _ rfl,
   (extraction_boundary_total (Except.error "cheerio blew up")
      (Except.error "cheerio blew up")).2.2.1 _ rfl⟩

/-- C5: the extraction waterfall fills each field with the first truthy
layer value — each layer only fills fields still null after the previous
one, earlier layers taking precedence; in particular a Layer 1 company
name is never overridden by Layers 2 or 3. -/
theorem parseCompanyData_waterfall (doc : Doc) (nlp : Nlp) :
    (parseCompanyData doc nlp).companyName
      = ((layer1CompanyName doc <|> layer2CompanyName doc)
          <|> (extractWithNER doc nlp).companyName) ∧
    (parseCompanyData doc nlp).website = (layer1Website doc <|> layer2Website doc) ∧
    (parseCompanyData doc nlp).industry = (layer1Industry doc <|> layer2Industry doc) ∧
    (parseCompanyData doc nlp).headcountRange
      = (layer1Headcount doc <|> layer2Headcount doc) ∧
    (parseCompanyData doc nlp).hqLocation
      = ((layer1Location doc <|> layer2Location doc)
          <|> (extractWithNER doc nlp).hqLocation) ∧
    (∀ n, layer1CompanyName doc = some n →
      (parseCompanyData doc nlp).companyName = some n) := by
  have hA : layer1CompanyName doc ≠ some "" := trimOpt_ne_blank _
  have hFA : layer2CompanyName doc ≠ some "" := tryFallbackSelectors_ne_blank _ _
  have hL : layer1Location doc ≠ some "" := trimOpt_ne_blank _
  have hFL : layer2Location doc ≠ some "" := tryFallbackSelectors_ne_blank _ _
  have hW : layer1Website doc ≠ some "" := hrefOpt_ne_blank _
  have hI : layer1Industry doc ≠ some "" := trimOpt_ne_blank _
  have hH : layer1Headcount doc ≠ some "" := trimOpt_ne_blank _
  have hnc := extractWithNER_companyName_ne_blank doc nlp
  have hnl := extractWithNER_hqLocation_ne_blank doc nlp
  have main : parseCompanyData doc nlp =
      ⟨(layer1CompanyName doc <|> layer2CompanyName doc)
          <|> (extractWithNER doc nlp).companyName,
        layer1Website doc <|> layer2Website doc,
        layer1Industry doc <|> layer2Industry doc,
        layer1Headcount doc <|> layer2Headcount doc,
        (layer1Location doc <|> layer2Location doc)
          <|> (extractWithNER doc nlp).hqLocation⟩ := by
    unfold parseCompanyData
    dsimp only
    rw [fill_eq_orElse _ _ hA, fill_eq_orElse _ _ hW, fill_eq_orElse _ _ hI,
      fill_eq_orElse _ _ hH, fill_eq_orElse _ _ hL,
      ner_fill_eq_orElse _ _ (orElse_ne_blank hA hFA) hnc,
      ner_fill_eq_orElse _ _ (orElse_ne_blank hL hFL) hnl]
    split_ifs with hcond
    · rfl
    · simp only [Bool.or_eq_true, Bool.not_eq_true'] at hcond
      push_neg at hcond
      rw [orElse_of_truthy _ (Bool.ne_false_iff.mp hcond.1),
        orElse_of_truthy _ (Bool.ne_false_iff.mp hcond.2)]
  refine ⟨by rw [main], by rw [main], by rw [main], by rw [main], by rw [main], ?_⟩
  intro n hn
  rw [main]
  show ((layer1CompanyName doc <|> layer2CompanyName doc)
      <|> (extractWithNER doc nlp).companyName) = some n
  rw [hn]
  rfl

/-- C5 (witness): on a page whose only markup is
`h1.company-name = "Acme Corp"`, the extracted company name is
"Acme Corp" regardless of the later layers. -/
theorem parseCompanyData_waterfall_witness :
    (parseCompanyData acmeDoc oracleA).companyName = some "Acme Corp" :=
  (parseCompanyData_waterfall acmeDoc oracleA).2.2.2.2.2 "Acme Corp" (by decide)

/-- Elements reached by the dedup fold come from the accumulator or the
list. -/
theorem foldl_dedup_mem (l : List String) : ∀ (acc : List String) (e : String),
    e ∈ l.foldl (fun acc x => if acc.contains x then acc else acc ++ [x]) acc →
    e ∈ acc ∨ e ∈ l := by
  induction l with
  | nil => exact fun acc e h => Or.inl h
  | cons x xs ih =>
    intro acc e h
    simp only [List.foldl_cons] at h
    rcases ih _ e h with h1 | h1
    · split_ifs at h1 with hx
      · exact Or.inl h1
      · rw [List.mem_append] at h1
        rcases h1 with h2 | h2
        · exact Or.inl h2
        · rw [List.mem_singleton] at h2
          exact Or.inr (h2 ▸ List.mem_cons_self _ _)
    · exact Or.inr (List.mem_cons_of_mem _ h1)

/-- Deduplication only keeps elements of the original list. -/
theorem dedupFirst_subset {l : List String} {e : String} (h : e ∈ dedupFirst l) :
    e ∈ l :=
  (foldl_dedup_mem l [] e h).resolve_left (by simp)

/-- Every structured contact comes from a card whose three trimmed
sub-fields are all non-empty, and is exactly that card's trimmed triple. -/
theorem structuredContacts_entries (doc : Doc) :
    ∀ c ∈ structuredContacts doc, ∃ card ∈ doc.contactCards,
      jsTrim card.1 ≠ "" ∧ jsTrim card.2.1 ≠ "" ∧ jsTrim card.2.2 ≠ "" ∧
      c = ⟨jsTrim card.1, jsTrim card.2.1, jsTrim card.2.2⟩ := by
  intro c hc
  unfold structuredContacts at hc
  rw [List.mem_filterMap] at hc
  obtain ⟨card, hcard, hsome⟩ := hc
  dsimp only at hsome
  split_ifs at hsome with h
  · rw [Option.some.injEq] at hsome
    simp only [Bool.and_eq_true, bne_iff_ne, ne_eq] at h
    exact ⟨card, hcard, h.1.1, h.1.2, h.2, hsome.symm⟩

/-- A filter-shaped `filterMap` keeps as many elements as the filter. -/
theorem filterMap_if_length {α : Type} (p : α → Bool) (f : α → Contact) (l : List α) :
    (l.filterMap (fun a => if p a then some (f a) else none)).length
      = (l.filter p).length := by
  induction l with
  | nil => rfl
  | cons a rest ih =>
    by_cases h : p a = true
    · simp [List.filterMap_cons, List.filter_cons, h, ih]
    · simp [List.filterMap_cons, List.filter_cons, h, ih]

/-- The structured layer keeps exactly the fully-filled cards. -/
theorem structuredContacts_length (doc : Doc) :
    (structuredContacts doc).length
      = (doc.contactCards.filter (fun card =>
          jsTrim card.1 != "" && jsTrim card.2.1 != "" && jsTrim card.2.2 != "")).length := by
  have h := filterMap_if_length
    (fun card => jsTrim card.1 != "" && jsTrim card.2.1 != "" && jsTrim card.2.2 != "")
    (fun card => (⟨jsTrim card.1, jsTrim card.2.1, jsTrim card.2.2⟩ : Contact))
    doc.contactCards
  unfold structuredContacts
  dsimp only
  exact h

/-- Every structured contact has all three fields non-empty. -/
theorem structuredContacts_nonempty (doc : Doc) :
    ∀ c ∈ structuredContacts doc, c.name ≠ "" ∧ c.title ≠ "" ∧ c.email ≠ "" := by
  intro c hc
  obtain ⟨card, -, hn, ht, he, hceq⟩ := structuredContacts_entries doc c hc
  subst hceq
  exact ⟨hn, ht, he⟩

/-- Every NER-layer contact has all three fields non-empty, provided every
email candidate is non-empty. -/
theorem nerContactPairs_nonempty (people ue : List String)
    (hue : ∀ e ∈ ue, e ≠ "") :
    ∀ c ∈ nerContactPairs people ue, c.name ≠ "" ∧ c.title ≠ "" ∧ c.email ≠ "" := by
  intro c hc
  unfold nerContactPairs at hc
  rw [List.mem_filterMap] at hc
  obtain ⟨⟨p, e⟩, hpe, hsome⟩ := hc
  split_ifs at hsome with h
  · rw [Option.some.injEq] at hsome
    subst hsome
    simp only [Bool.and_eq_true, bne_iff_ne, ne_eq] at h
    exact ⟨h.1.1, by simp, hue e (List.of_mem_zip hpe).2⟩

/-- Every contact accumulated by `parseContacts` has non-empty fields. -/
theorem contactsAccum_nonempty (doc : Doc) (nlp : Nlp) :
    ∀ c ∈ contactsAccum doc nlp, c.name ≠ "" ∧ c.title ≠ "" ∧ c.email ≠ "" := by
  intro c hc
  unfold contactsAccum at hc
  dsimp only at hc
  split_ifs at hc with h1 h2
  · rw [List.mem_append] at hc
    rcases hc with hc | hc
    · exact structuredContacts_nonempty doc c hc
    · refine nerContactPairs_nonempty _ _ ?_ c hc
      intro e he
      exact ne_empty_of_at_mem
        (extractWithNER_emails_at doc nlp e (dedupFirst_subset he))
  · exact structuredContacts_nonempty doc c hc
  · exact structuredContacts_nonempty doc c hc

/-- C6: `parseContacts` returns either null or a non-empty list whose every
entry has non-empty name, title and email; a structured contact card with
any trimmed sub-field empty contributes no entry (each kept entry is the
trimmed triple of a fully-filled card, and the count equals the number of
fully-filled cards); an empty result is returned as null, never as an
empty array. -/
theorem parseContacts_c6_spec (doc : Doc) (nlp : Nlp) :
    parseContacts doc nlp ≠ some [] ∧
    (∀ l, parseContacts doc nlp = some l →
      l ≠ [] ∧ ∀ c ∈ l, c.name ≠ "" ∧ c.title ≠ "" ∧ c.email ≠ "") ∧
    (∀ c ∈ structuredContacts doc, ∃ card ∈ doc.contactCards,
      jsTrim card.1 ≠ "" ∧ jsTrim card.2.1 ≠ "" ∧ jsTrim card.2.2 ≠ "" ∧
      c = ⟨jsTrim card.1, jsTrim card.2.1, jsTrim card.2.2⟩) ∧
    (structuredContacts doc).length
      = (doc.contactCards.filter (fun card =>
          jsTrim card.1 != "" && jsTrim card.2.1 != "" && jsTrim card.2.2 != "")).length := by
  have hacc := contactsAccum_nonempty doc nlp
  unfold parseContacts
  dsimp only
  split_ifs with hpos
  · refine ⟨?_, ?_, structuredContacts_entries doc, structuredContacts_length doc⟩
    · intro hbad
      rw [Option.some.injEq] at hbad
      rw [hbad] at hpos
      simp at hpos
    · intro l hl
      rw [Option.some.injEq] at hl
      subst hl
      exact ⟨List.ne_nil_of_length_pos hpos, hacc⟩
  · refine ⟨by simp, ?_, structuredContacts_entries doc, structuredContacts_length doc⟩
    intro l hl
    exact hl.elim

/-- C6 (witness): a page with one fully-filled contact card yields a
non-empty contact list with non-empty fields everywhere. -/
theorem parseContacts_c6_spec_witness :
    ([(⟨"Jane Doe", "CEO", "jane@acme.com"⟩ : Contact)]) ≠ [] ∧
    ∀ c ∈ ([(⟨"Jane Doe", "CEO", "jane@acme.com"⟩ : Contact)]),
      c.name ≠ "" ∧ c.title ≠ "" ∧ c.email ≠ "" :=
  (parseContacts_c6_spec cardDoc oracleA).2.1 _ (by decide)

/-- C7: entity recognition is gated and capped as claimed, with the amended
trigger reading — (1) a collapsed body text shorter than 50 characters
yields empty NER results; (2) the analyzed text never exceeds 100000
characters and (3) `extractWithNER` depends on the engines only through
their output on that capped text; (4) on long-enough text the company name
(resp. location) is the first organization (resp. place) candidate with
length strictly between 1 and 100; (5) when company name and location are
both present after Layers 1–2, `parseCompanyData` never consults the NER
engine, and (6) when at least one structured contact exists,
`parseContacts` never consults it. -/
theorem extractWithNER_c7_spec (doc : Doc) (nlp nlp2 : Nlp) :
    ((collapseWs doc.bodyText).length < 50 →
      extractWithNER doc nlp = ⟨none, none, [], []⟩) ∧
    (nerAnalyzedText doc).length ≤ 100000 ∧
    (nlp.orgs (nerAnalyzedText doc) = nlp2.orgs (nerAnalyzedText doc) →
      nlp.places (nerAnalyzedText doc) = nlp2.places (nerAnalyzedText doc) →
      nlp.people (nerAnalyzedText doc) = nlp2.people (nerAnalyzedText doc) →
      nlp.emailMatches (nerAnalyzedText doc) = nlp2.emailMatches (nerAnalyzedText doc) →
      extractWithNER doc nlp = extractWithNER doc nlp2) ∧
    (50 ≤ (collapseWs doc.bodyText).length →
      (extractWithNER doc nlp).companyName
        = (nlp.orgs (nerAnalyzedText doc)).find?
            (fun o => decide (1 < o.length) && decide (o.length < 100)) ∧
      (extractWithNER doc nlp).hqLocation
        = (nlp.places (nerAnalyzedText doc)).find?
            (fun p => decide (1 < p.length) && decide (p.length < 100))) ∧
    ((layer1CompanyName doc <|> layer2CompanyName doc) ≠ none →
      (layer1Location doc <|> layer2Location doc) ≠ none →
      parseCompanyData doc nlp = parseCompanyData doc nlp2) ∧
    (structuredContacts doc ≠ [] →
      parseContacts doc nlp = parseContacts doc nlp2) := by
  refine ⟨?_, ?_, ?_, ?_, ?_, ?_⟩
  · intro h
    unfold extractWithNER
    dsimp only
    rw [if_pos (Or.inr h)]
  · unfold nerAnalyzedText
    dsimp only
    split_ifs with h
    · show ((collapseWs doc.bodyText).data.take 100000).length ≤ 100000
      rw [List.length_take]
      exact min_le_left _ _
    · omega
  · intro h1 h2 h3 h4
    unfold extractWithNER
    dsimp only
    split_ifs with h
    · rfl
    · rw [h1, h2, h3, h4]
  · intro h
    have hcond : ¬(collapseWs doc.bodyText = "" ∨ (collapseWs doc.bodyText).length < 50) := by
      rintro (hb | hb)
      · rw [hb] at h
        have h0 : ("" : String).length = 0 := rfl
        rw [h0] at h
        omega
      · omega
    unfold extractWithNER
    dsimp only
    rw [if_neg hcond]
    exact ⟨rfl, rfl⟩
  · intro hn hl
    have hA : layer1CompanyName doc ≠ some "" := trimOpt_ne_blank _
    have hFA : layer2CompanyName doc ≠ some "" := tryFallbackSelectors_ne_blank _ _
    have hL : layer1Location doc ≠ some "" := trimOpt_ne_blank _
    have hFL : layer2Location doc ≠ some "" := tryFallbackSelectors_ne_blank _ _
    have hW : layer1Website doc ≠ some "" := hrefOpt_ne_blank _
    have hI : layer1Industry doc ≠ some "" := trimOpt_ne_blank _
    have hH : layer1Headcount doc ≠ some "" := trimOpt_ne_blank _
    have t1 : truthy (layer1CompanyName doc <|> layer2CompanyName doc) = true :=
      truthy_of_ne hn (orElse_ne_blank hA hFA)
    have t2 : truthy (layer1Location doc <|> layer2Location doc) = true :=
      truthy_of_ne hl (orElse_ne_blank hL hFL)
    unfold parseCompanyData
    dsimp only
    rw [fill_eq_orElse _ _ hA, fill_eq_orElse _ _ hW, fill_eq_orElse _ _ hI,
      fill_eq_orElse _ _ hH, fill_eq_orElse _ _ hL, t1, t2]
    simp
  · intro hk
    have hlen : ¬(structuredContacts doc).length = 0 := by
      intro h0
      exact hk (List.length_eq_zero.mp h0)
    unfold parseContacts contactsAccum
    dsimp only
    rw [if_neg hlen, if_neg hlen]

/-- C7 (witness): a 12-character body yields empty NER results, and on a
page with a structured contact the contact extraction is unchanged when the
NER engine is swapped out entirely. -/
theorem extractWithNER_c7_spec_witness :
    extractWithNER shortDoc oracleA = ⟨none, none, [], []⟩ ∧
    parseContacts cardDoc oracleA = parseContacts cardDoc oracleB :=
  ⟨(extractWithNER_c7_spec shortDoc oracleA oracleB).1 (by decide),
   (extractWithNER_c7_spec cardDoc oracleA oracleB).2.2.2.2.2 (by decide)⟩

/-- C10: NER contact reconstruction pairs strictly by index — every produced
contact is `(people[i], "Unknown", distinctEmail[i])` for some
`i < min(|people|, |distinct emails|)` whose person passes the length
filter; every such passing index produces its contact; and on a concrete
input where `people[0] = "X"` fails the filter, `distinctEmail[0]` is
dropped rather than reassigned, so the result is strictly shorter than
the minimum. -/
theorem nerContactPairs_c10_spec (people emails : List String) :
    (∀ c ∈ nerContactPairs people (dedupFirst emails), c.title = "Unknown" ∧
      ∃ i, i < min people.length (dedupFirst emails).length ∧
        people.get? i = some c.name ∧ (dedupFirst emails).get? i = some c.email) ∧
    (∀ (i : Nat) (p e : String), people.get? i = some p →
      (dedupFirst emails).get? i = some e →
      (p != "" && decide (1 < p.length) && decide (p.length < 100)) = true →
      (⟨p, "Unknown", e⟩ : Contact) ∈ nerContactPairs people (dedupFirst emails)) ∧
    (nerContactPairs ["X", "Bo"] (dedupFirst ["a@x.io", "b@x.io"])
        = [⟨"Bo", "Unknown", "b@x.io"⟩] ∧
      (nerContactPairs ["X", "Bo"] (dedupFirst ["a@x.io", "b@x.io"])).length
        < min (["X", "Bo"] : List String).length (dedupFirst ["a@x.io", "b@x.io"]).length) := by
  refine ⟨?_, ?_, by decide⟩
  · intro c hc
    unfold nerContactPairs at hc
    rw [List.mem_filterMap] at hc
    obtain ⟨⟨p, e⟩, hpe, hsome⟩ := hc
    split_ifs at hsome with h
    · rw [Option.some.injEq] at hsome
      subst hsome
      rw [List.mem_iff_get?] at hpe
      obtain ⟨i, hi⟩ := hpe
      rw [List.get?_zip_eq_some] at hi
      obtain ⟨hp, he⟩ := hi
      obtain ⟨hplt, -⟩ := List.get?_eq_some.mp hp
      obtain ⟨helt, -⟩ := List.get?_eq_some.mp he
      exact ⟨rfl, i, Nat.lt_min.mpr ⟨hplt, helt⟩, hp, he⟩
  · intro i p e hp he hpass
    unfold nerContactPairs
    rw [List.mem_filterMap]
    refine ⟨(p, e), ?_, ?_⟩
    · exact List.get?_mem ((List.get?_zip_eq_some _ _ _ _).mpr ⟨hp, he⟩)
    · dsimp only
      rw [if_pos hpass]

/-- C10 (witness): at index 1, person "Bo" is paired with the second
distinct email, yielding a member of the reconstructed contact list. -/
theorem nerContactPairs_c10_spec_witness :
    (⟨"Bo", "Unknown", "b@x.io"⟩ : Contact) ∈
      nerContactPairs ["X", "Bo"] (dedupFirst ["a@x.io", "b@x.io"]) :=
  (nerContactPairs_c10_spec ["X", "Bo"] ["a@x.io", "b@x.io"]).2.1 1 "Bo" "b@x.io"
    (by decide) (by decide) (by decide)

end Scraping
